import Mathlib

/-
Shallow embedding of `src/ics/todo.py` (the VTODO entity of ics.py).

Modelling conventions:
* Arrow instants (timestamps) are modelled as integers; `timedelta` time-spans
  are modelled as integers as well.  Absence (`None`) is `Option`.
* Python truthiness matters: an `arrow.Arrow` instance is always truthy, so an
  optional timestamp is truthy iff it is present; a `timedelta` is falsy when
  it equals `timedelta(0)`, so an optional time-span is truthy iff it is
  present and nonzero.  An optional `int` is truthy iff present and nonzero,
  and a string is truthy iff nonempty.
* Fallible Python code (raised exceptions) is modelled with `Except Err`.
  Comparing or doing arithmetic between an arrow instant and `None` raises
  (`TypeError` from arrow's rich-comparison/arithmetic methods); reading an
  attribute of `None` raises `AttributeError`; both are modelled as
  `Err.noneErr`.
* String comparison of python `str` maps to Lean `String` order for present
  names; the source's `__gt__`/`__ge__` compare possibly-`None` names with the
  plain `>`/`>=` of the interpreter the package targets (it is a `six`-based
  python-2-compatible code base whose own comment flags the python-3 `None`
  case as unhandled), where `None` orders strictly before every string.
-/

namespace IcsTodo

abbrev Timestamp := Int

abbrev Span := Int

/-- Failure modes of the embedded operations, named after the spec's error
vocabulary: `invalidState` for `ValueError` raised by the `begin`/`due`
setters, `invalidConstr` for `ValueError` raised by the constructor,
`malformedProp` for `ValueError` raised inside an extractor handler,
`typeMismatch` for `NotImplementedError` on a foreign comparison operand, and
`noneErr` for `TypeError`/`AttributeError` arising from using `None` as a
timestamp, time-span or property line. -/
inductive Err where
  | invalidState
  | invalidConstr
  | malformedProp
  | typeMismatch
  | noneErr
  deriving DecidableEq, Repr

/-- Python truthiness of an optional arrow timestamp: an `Arrow` instance is
always truthy, so the value is truthy exactly when present. -/
def tsTruthy : Option Timestamp → Bool
  | some _ => true
  | none => false

/-- Python truthiness of an optional `timedelta`: `timedelta(0)` is falsy, so
the value is truthy exactly when present and nonzero. -/
def spanTruthy : Option Span → Bool
  | some d => d != 0
  | none => false

/-- Python truthiness of an optional `int` (used for `percent`/`priority` in
the output producers): truthy exactly when present and nonzero. -/
def intTruthy : Option Int → Bool
  | some n => n != 0
  | none => false

/-- The state of a `Todo` instance: one field per Python attribute used by
`todo.py`.  `_begin`, `_due_time` and `_duration` are the private attributes
behind the `begin`/`due`/`duration` properties.  Alarms and the `_unused`
container are opaque to every claim and omitted. -/
structure Todo where
  uid : String := ""
  completed : Option Timestamp := none
  created : Option Timestamp := none
  description : Option String := none
  location : Option String := none
  percent : Option Int := none
  priority : Option Int := none
  name : Option String := none
  url : Option String := none
  _begin : Option Timestamp := none
  _due_time : Option Timestamp := none
  _duration : Option Span := none
  deriving DecidableEq, Repr

/-- Modelled from the spec: the external timestamp codec's `get_arrow`
(utils.py, not under src/) coerces a timestamp-like value to a timezone-aware
instant, or passes `None` through; on an already-coerced optional instant it
is the identity. -/
def get_arrow (v : Option Timestamp) : Option Timestamp := v

/-- Comparison `a < b` where either side may be `None`: arrow's rich
comparisons raise on a non-datetime operand, so a `None` side is an error. -/
def ltOptTs : Option Timestamp → Option Timestamp → Except Err Bool
  | some a, some b => .ok (decide (a < b))
  | _, _ => .error .noneErr

/-- Comparison `a <= b` where either side may be `None` (see `ltOptTs`). -/
def leOptTs : Option Timestamp → Option Timestamp → Except Err Bool
  | some a, some b => .ok (decide (a ≤ b))
  | _, _ => .error .noneErr

/-- Comparison `a > b` where either side may be `None` (see `ltOptTs`). -/
def gtOptTs : Option Timestamp → Option Timestamp → Except Err Bool
  | some a, some b => .ok (decide (a > b))
  | _, _ => .error .noneErr

/-- Comparison `a >= b` where either side may be `None` (see `ltOptTs`). -/
def geOptTs : Option Timestamp → Option Timestamp → Except Err Bool
  | some a, some b => .ok (decide (a ≥ b))
  | _, _ => .error .noneErr

/-- Property getter `Todo.begin`: returns `self._begin`. -/
def Todo.begin (t : Todo) : Option Timestamp := t._begin

/-- Property getter `Todo.due` (todo.py lines 125-145):
`if self._duration: return self.begin + self._duration`
`elif self._due_time: return self._due_time` `else: return None`.
The addition `self.begin + self._duration` raises when `begin` is `None`. -/
def Todo.due (t : Todo) : Except Err (Option Timestamp) :=
  if spanTruthy t._duration then
    match t.begin, t._duration with
    | some b, some d => .ok (some (b + d))
    | _, _ => .error .noneErr
  else if tsTruthy t._due_time then
    .ok t._due_time
  else
    .ok none

/-- Property getter `Todo.duration` (todo.py lines 158-174):
`if self._duration: return self._duration` `elif self.due: return self.due -
self.begin` `else: return None`.  The subtraction raises when `begin` is
`None`. -/
def Todo.duration (t : Todo) : Except Err (Option Span) :=
  if spanTruthy t._duration then
    .ok t._duration
  else
    match t.due with
    | .error e => .error e
    | .ok (some dv) =>
      match t.begin with
      | some b => .ok (some (dv - b))
      | none => .error .noneErr
    | .ok none => .ok none

/-- Property setter `Todo.begin` (todo.py lines 118-123):
`value = get_arrow(value)`; `if value and self._due_time and value >
self._due_time: raise ValueError`; `self._begin = value`.  Both truthiness
tests are presence tests, and the comparison only runs when both sides are
present. -/
def Todo.setBegin (t : Todo) (value : Option Timestamp) : Except Err Todo :=
  let value := get_arrow value
  match value, t._due_time with
  | some v, some dt =>
    if v > dt then .error .invalidState
    else .ok { t with _begin := some v }
  | _, _ => .ok { t with _begin := value }

/-- Property setter `Todo.due` (todo.py lines 147-156):
`value = get_arrow(value)`; `if value and value < self._begin: raise
ValueError`; `self._due_time = value`; `if value: self._duration = None`.
When `value` is present and `self._begin` is `None` the comparison itself
raises (arrow refuses `None`). -/
def Todo.setDue (t : Todo) (value : Option Timestamp) : Except Err Todo :=
  let value := get_arrow value
  if tsTruthy value then
    match ltOptTs value t._begin with
    | .error e => .error e
    | .ok true => .error .invalidState
    | .ok false => .ok { t with _due_time := value, _duration := none }
  else
    .ok { t with _due_time := value }

/-- Property setter `Todo.duration` (todo.py lines 176-188): the value is
coerced to a `timedelta` (dict / timedelta / number cases, all folded into the
already-coerced optional time-span here); `self._duration = value`; `if value:
self._due_time = None`.  The truthiness test treats `timedelta(0)` as falsy.
Never raises. -/
def Todo.setDuration (t : Todo) (value : Option Span) : Todo :=
  let t := { t with _duration := value }
  if spanTruthy value then { t with _due_time := none } else t

/-- Modelled from the spec: `uid_gen` (utils.py, not under src/) generates a
fresh unique identifier string. -/
def uid_gen : String := "generated@uid"

/-- Constructor `Todo.__init__` (todo.py lines 39-105), with the `alarms`
argument omitted (opaque to every claim).  Field order follows the source:
the private fields start as `None`, `uid` is generated when the argument is
falsy, `begin` is stored through the `begin` setter, then the plain fields
are stored, and finally the contradictory-argument checks run on the RAW
arguments by truthiness: `if duration and due: raise`, `elif duration: if not
begin: raise else self.duration = duration`, `elif due: self.due = due`. -/
def todoInit (uid : Option String) (completed created : Option Timestamp)
    (description : Option String) (beginArg : Option Timestamp)
    (location : Option String) (percent priority : Option Int)
    (name url : Option String) (due : Option Timestamp)
    (duration : Option Span) : Except Err Todo :=
  let t0 : Todo :=
    { uid := match uid with
             | some u => if u = "" then uid_gen else u
             | none => uid_gen
      completed := get_arrow completed
      created := get_arrow created
      description := description }
  match t0.setBegin beginArg with
  | .error e => .error e
  | .ok t1 =>
    let t1 := { t1 with location := location, percent := percent,
                        priority := priority, name := name, url := url }
    if spanTruthy duration && tsTruthy due then
      .error .invalidConstr
    else if spanTruthy duration then
      if !(tsTruthy beginArg) then
        .error .invalidConstr
      else
        .ok (t1.setDuration duration)
    else if tsTruthy due then
      t1.setDue due
    else
      .ok t1

/-- Python truthiness of an optional string: truthy exactly when present and
nonempty. -/
def strTruthy : Option String → Bool
  | some s => s != ""
  | none => false

/-- Dynamic operand of a comparison method: a `Todo`, a `datetime`-compatible
raw timestamp, or any other (foreign) python value. -/
inductive PyValue where
  | todo (t : Todo)
  | dtime (d : Timestamp)
  | exotic
  deriving Repr

/-- Plain python-2 `>` on two optional strings, as run by `__gt__` on the
`name` attributes (the source's own comment flags the python-3 `None` case as
unhandled): `None` orders strictly before every string. -/
def py2GtName : Option String → Option String → Bool
  | some x, some y => decide (x > y)
  | some _, none => true
  | none, _ => false

/-- Plain python-2 `>=` on two optional strings (see `py2GtName`). -/
def py2GeName : Option String → Option String → Bool
  | some x, some y => decide (x ≥ y)
  | some _, none => true
  | none, some _ => false
  | none, none => true

/-- Method `Todo.starts_within` (todo.py lines 202-212): raises on a
non-`Todo` operand; returns `False` unless `self.begin`, `other.begin` and
`other.due` are all truthy; otherwise evaluates the chained comparison
`other.begin <= self.begin <= other.due`. -/
def Todo.starts_within (t : Todo) (other : PyValue) : Except Err Bool :=
  match other with
  | .todo o =>
    if !(tsTruthy t.begin) then .ok false
    else if !(tsTruthy o.begin) then .ok false
    else
      match o.due with
      | .error e => .error e
      | .ok od =>
        if !(tsTruthy od) then .ok false
        else
          match leOptTs o.begin t.begin with
          | .error e => .error e
          | .ok false => .ok false
          | .ok true => leOptTs t.begin od
  | _ => .error .typeMismatch

/-- Method `Todo.due_within` (todo.py lines 214-224): raises on a non-`Todo`
operand; the guard tests `self.begin` (not `self.due`, although the inline
comment says the check needs "a due"), `other.begin` and `other.due`;
otherwise evaluates the chained comparison `other.begin <= self.due <=
other.due`, which raises when `self.due` is `None`. -/
def Todo.due_within (t : Todo) (other : PyValue) : Except Err Bool :=
  match other with
  | .todo o =>
    if !(tsTruthy t.begin) then .ok false
    else if !(tsTruthy o.begin) then .ok false
    else
      match o.due with
      | .error e => .error e
      | .ok od =>
        if !(tsTruthy od) then .ok false
        else
          match t.due with
          | .error e => .error e
          | .ok sd =>
            match leOptTs o.begin sd with
            | .error e => .error e
            | .ok false => .ok false
            | .ok true => leOptTs sd od
  | _ => .error .typeMismatch

/-- Operator `Todo.__lt__` (todo.py lines 237-252): on a `Todo` operand, when
both `due` values are `None` compare names with explicit `None` handling
(absent name first, both absent gives `False`); otherwise `self.due <
other.due`.  On a `datetime` operand compare `self.due` with it; any other
operand raises. -/
def Todo.lt (t : Todo) (other : PyValue) : Except Err Bool :=
  match other with
  | .todo o =>
    match t.due, o.due with
    | .error e, _ => .error e
    | .ok _, .error e => .error e
    | .ok none, .ok none =>
      match t.name, o.name with
      | none, none => .ok false
      | none, some _ => .ok true
      | some _, none => .ok false
      | some x, some y => .ok (decide (x < y))
    | .ok sd, .ok od => ltOptTs sd od
  | .dtime d =>
    match t.due with
    | .error e => .error e
    | .ok sd => ltOptTs sd (some d)
  | .exotic => .error .typeMismatch

/-- Operator `Todo.__le__` (todo.py lines 254-269): like `__lt__` but both
absent names give `True` and names compare by `<=`. -/
def Todo.le (t : Todo) (other : PyValue) : Except Err Bool :=
  match other with
  | .todo o =>
    match t.due, o.due with
    | .error e, _ => .error e
    | .ok _, .error e => .error e
    | .ok none, .ok none =>
      match t.name, o.name with
      | none, none => .ok true
      | none, some _ => .ok true
      | some _, none => .ok false
      | some x, some y => .ok (decide (x ≤ y))
    | .ok sd, .ok od => leOptTs sd od
  | .dtime d =>
    match t.due with
    | .error e => .error e
    | .ok sd => leOptTs sd (some d)
  | .exotic => .error .typeMismatch

/-- Operator `Todo.__gt__` (todo.py lines 271-280): when both `due` values are
`None` it runs the bare `self.name > other.name`, modelled with python-2
`None` ordering; otherwise `self.due > other.due`. -/
def Todo.gt (t : Todo) (other : PyValue) : Except Err Bool :=
  match other with
  | .todo o =>
    match t.due, o.due with
    | .error e, _ => .error e
    | .ok _, .error e => .error e
    | .ok none, .ok none => .ok (py2GtName t.name o.name)
    | .ok sd, .ok od => gtOptTs sd od
  | .dtime d =>
    match t.due with
    | .error e => .error e
    | .ok sd => gtOptTs sd (some d)
  | .exotic => .error .typeMismatch

/-- Operator `Todo.__ge__` (todo.py lines 282-291): when both `due` values are
`None` it runs the bare `self.name >= other.name`, modelled with python-2
`None` ordering; otherwise `self.due >= other.due`. -/
def Todo.ge (t : Todo) (other : PyValue) : Except Err Bool :=
  match other with
  | .todo o =>
    match t.due, o.due with
    | .error e, _ => .error e
    | .ok _, .error e => .error e
    | .ok none, .ok none => .ok (py2GeName t.name o.name)
    | .ok sd, .ok od => geOptTs sd od
  | .dtime d =>
    match t.due with
    | .error e => .error e
    | .ok sd => geOptTs sd (some d)
  | .exotic => .error .typeMismatch

/-- Modelled from the spec: a property line produced by the external tokenizer
(parse.py, not under src/): a `(tag, value)` pair; parameters are irrelevant
to every claim and omitted. -/
structure ContentLine where
  name : String
  value : String
  deriving DecidableEq, Repr

/-- Modelled from the spec: reading `line.value` when a handler received no
matching line (`line = None`) raises `AttributeError`. -/
def lineValue : Option ContentLine → Except Err String
  | some l => .ok l.value
  | none => .error .noneErr

/-- Modelled from the spec: the numeric reading of a property-line value
(`PERCENT-COMPLETE`, `PRIORITY`), as delivered by the external tokenizer. -/
def intValue (s : String) : Int := s.toInt?.getD 0

/-- Modelled from the spec: `iso_to_arrow` (utils.py, not under src/) decodes
a textual timestamp into a timezone-aware instant. -/
def iso_to_arrow (s : String) : Timestamp := s.toInt?.getD 0

/-- Modelled from the spec: `parse_duration` (utils.py, not under src/)
decodes an ISO-8601-like duration string into a time-span. -/
def parse_duration (s : String) : Span := s.toInt?.getD 0

/-- Modelled from the spec: the extraction registry (component.py, not under
src/) passes each single-line handler the one matching line of the incoming
container, or `None` when no line with that tag is present and the tag is not
marked required. -/
def findLine (c : List ContentLine) (tag : String) : Option ContentLine :=
  c.find? (fun l => l.name == tag)

/-- Extractor handler for `PERCENT-COMPLETE` (todo.py lines 390-394): reads
`line.value` BEFORE testing whether `line` exists (so an absent line raises),
range-checks it into [0, 100] raising `ValueError` otherwise, then stores
`line.value if line else None`. -/
def percentExtract (t : Todo) (line : Option ContentLine) : Except Err Todo :=
  match lineValue line with
  | .error e => .error e
  | .ok v =>
    if intValue v < 0 ∨ intValue v > 100 then
      .error .malformedProp
    else
      .ok { t with percent := if line.isSome then some (intValue v) else none }

/-- Extractor handler for `PRIORITY` (todo.py lines 397-401): same shape as
the percent handler with range [0, 9]. -/
def priorityExtract (t : Todo) (line : Option ContentLine) : Except Err Todo :=
  match lineValue line with
  | .error e => .error e
  | .ok v =>
    if intValue v < 0 ∨ intValue v > 9 then
      .error .malformedProp
    else
      .ok { t with priority := if line.isSome then some (intValue v) else none }

/-- Extractor handler for `DUE` (todo.py lines 414-422): with a line present,
raises when a (truthy) duration is already stored, else writes the decoded
instant DIRECTLY into `todo._due_time`, bypassing the `due` setter and its
begin check; with no line it does nothing. -/
def dueExtract (t : Todo) (line : Option ContentLine) : Except Err Todo :=
  match line with
  | some l =>
    if spanTruthy t._duration then .error .malformedProp
    else .ok { t with _due_time := some (iso_to_arrow l.value) }
  | none => .ok t

/-- Extractor handler for `DURATION` (todo.py lines 425-431): with a line
present, raises when a due-time is already stored, else writes the decoded
time-span directly into `todo._duration`; with no line it does nothing. -/
def durationExtract (t : Todo) (line : Option ContentLine) : Except Err Todo :=
  match line with
  | some l =>
    if tsTruthy t._due_time then .error .malformedProp
    else .ok { t with _duration := some (parse_duration l.value) }
  | none => .ok t

/-- Modelled from the spec: `arrow_to_iso` (utils.py, not under src/) encodes
an instant as its textual representation. -/
def arrow_to_iso (ts : Timestamp) : String := toString ts

/-- Modelled from the spec: `timedelta_to_duration` (utils.py, not under
src/) encodes a time-span as an ISO-8601-like duration string. -/
def timedelta_to_duration (d : Span) : String := toString d

/-- Modelled from the spec: `escape_string` (utils.py, not under src/)
backslash-escapes free text for output. -/
def escape_string (s : String) : String := s

/-- Output producer `o_uid` (todo.py lines 457-464): always appends a `UID`
line, generating the identifier when the stored one is falsy (empty). -/
def o_uid (t : Todo) (c : List ContentLine) : List ContentLine :=
  let u := if t.uid != "" then t.uid else uid_gen
  c ++ [⟨"UID", u⟩]

/-- Output producer `o_completed` (todo.py lines 467-474): always appends a
`COMPLETED` line, defaulting to the current instant `arrow.now()` (passed in
as `now`) when `completed` is absent. -/
def o_completed (t : Todo) (now : Timestamp) (c : List ContentLine) : List ContentLine :=
  let instant := match t.completed with
                 | some i => i
                 | none => now
  c ++ [⟨"COMPLETED", arrow_to_iso instant⟩]

/-- Output producer `o_created` (todo.py lines 478-486): always appends a
`DTSTAMP` line (the source notes it should be `CREATED`), defaulting to the
current instant when `created` is absent. -/
def o_created (t : Todo) (now : Timestamp) (c : List ContentLine) : List ContentLine :=
  let instant := match t.created with
                 | some i => i
                 | none => now
  c ++ [⟨"DTSTAMP", arrow_to_iso instant⟩]

/-- Output producer `o_description` (todo.py lines 489-492): appends a
`DESCRIPTION` line when the field is truthy. -/
def o_description (t : Todo) (c : List ContentLine) : List ContentLine :=
  if strTruthy t.description then
    c ++ [⟨"DESCRIPTION", escape_string (t.description.getD "")⟩]
  else c

/-- Output producer `o_start` (todo.py lines 495-498): appends a `DTSTART`
line when `begin` is present. -/
def o_start (t : Todo) (c : List ContentLine) : List ContentLine :=
  match t.begin with
  | some b => c ++ [⟨"DTSTART", arrow_to_iso b⟩]
  | none => c

/-- Output producer `o_location` (todo.py lines 501-504): appends a
`LOCATION` line when the field is truthy. -/
def o_location (t : Todo) (c : List ContentLine) : List ContentLine :=
  if strTruthy t.location then
    c ++ [⟨"LOCATION", escape_string (t.location.getD "")⟩]
  else c

/-- Output producer `o_percent` (todo.py lines 507-510): appends a
`PERCENT-COMPLETE` line when the field is truthy (present and nonzero). -/
def o_percent (t : Todo) (c : List ContentLine) : List ContentLine :=
  if intTruthy t.percent then
    c ++ [⟨"PERCENT-COMPLETE", toString (t.percent.getD 0)⟩]
  else c

/-- Output producer `o_priority` (todo.py lines 513-516): appends a
`PRIORITY` line when the field is truthy (present and nonzero). -/
def o_priority (t : Todo) (c : List ContentLine) : List ContentLine :=
  if intTruthy t.priority then
    c ++ [⟨"PRIORITY", toString (t.priority.getD 0)⟩]
  else c

/-- Output producer `o_summary` (todo.py lines 519-522): appends a `SUMMARY`
line when the name is truthy. -/
def o_summary (t : Todo) (c : List ContentLine) : List ContentLine :=
  if strTruthy t.name then
    c ++ [⟨"SUMMARY", escape_string (t.name.getD "")⟩]
  else c

/-- Output producer `o_url` (todo.py lines 525-528): appends a `URL` line
when the field is truthy. -/
def o_url (t : Todo) (c : List ContentLine) : List ContentLine :=
  if strTruthy t.url then
    c ++ [⟨"URL", escape_string (t.url.getD "")⟩]
  else c

/-- Output producer `o_due` (todo.py lines 531-534): appends a `DUE` line
exactly when the explicit `_due_time` field is truthy, i.e. present. -/
def o_due (t : Todo) (c : List ContentLine) : List ContentLine :=
  match t._due_time with
  | some dt => c ++ [⟨"DUE", arrow_to_iso dt⟩]
  | none => c

/-- Output producer `o_duration` (todo.py lines 537-542): appends a
`DURATION` line exactly when `todo._duration and todo.begin` is truthy, i.e.
the stored duration is present and nonzero and `begin` is present. -/
def o_duration (t : Todo) (c : List ContentLine) : List ContentLine :=
  match t._duration with
  | some d =>
    if d != 0 && tsTruthy t.begin then
      c ++ [⟨"DURATION", timedelta_to_duration d⟩]
    else c
  | none => c

/-- The full output pipeline (todo.py lines 457-542), the producers applied
in registration order to an empty container.  The alarm producer appends
opaque rendered alarm strings (not property lines) and alarms are outside the
model, as is the trailing verbatim copy of `_unused` lines handled by the
external `Component` base class. -/
def todoOutput (t : Todo) (now : Timestamp) : List ContentLine :=
  o_duration t (o_due t (o_url t (o_summary t (o_priority t (o_percent t
    (o_location t (o_start t (o_description t (o_created t now
      (o_completed t now (o_uid t [])))))))))))

/-- Whether a container holds at least one line with the given tag. -/
def hasTag (c : List ContentLine) (tag : String) : Bool :=
  c.any (fun l => l.name == tag)

instance {ε α : Type} [DecidableEq ε] [DecidableEq α] : DecidableEq (Except ε α) :=
  fun x y =>
    match x, y with
    | .ok a, .ok b =>
      if h : a = b then .isTrue (by rw [h]) else .isFalse (by simp [h])
    | .error a, .error b =>
      if h : a = b then .isTrue (by rw [h]) else .isFalse (by simp [h])
    | .ok _, .error _ => .isFalse (by simp)
    | .error _, .ok _ => .isFalse (by simp)

/-- The mutual-exclusion invariant as the claims state it: at most one of the
two internal fields is non-absent. -/
def atMostOneSet (t : Todo) : Bool :=
  !(t._due_time.isSome && t._duration.isSome)

/-- The mutual-exclusion invariant the code actually maintains: at most one
of the two internal fields is truthy (a stored `timedelta(0)` does not count
as a duration anywhere in the code, but it is non-absent). -/
def exclTruthy (t : Todo) : Bool :=
  !(tsTruthy t._due_time && spanTruthy t._duration)

theorem setBegin_ok_shape (t : Todo) (v : Option Timestamp) (t' : Todo)
    (h : t.setBegin v = .ok t') : t' = { t with _begin := v } := by
  unfold Todo.setBegin get_arrow at h
  cases hv : v with
  | none =>
    subst hv
    cases hd : t._due_time <;> simp [hd] at h <;> exact h.symm
  | some x =>
    subst hv
    cases hd : t._due_time with
    | none => simp [hd] at h; exact h.symm
    | some dt =>
      simp [hd] at h
      by_cases hgt : x > dt
      · simp [hgt] at h
      · simp [hgt] at h; exact h.symm

theorem setDue_some_shape (t : Todo) (x : Timestamp) (t' : Todo)
    (h : t.setDue (some x) = .ok t') :
    t' = { t with _due_time := some x, _duration := none } := by
  unfold Todo.setDue get_arrow at h
  cases hb : t._begin with
  | none => simp [tsTruthy, ltOptTs, hb] at h
  | some b =>
    by_cases hlt : x < b
    · simp [tsTruthy, ltOptTs, hb, hlt] at h
    · simp [tsTruthy, ltOptTs, hb, hlt] at h
      exact h.symm

theorem setDue_none_shape (t : Todo) :
    t.setDue none = .ok { t with _due_time := none } := by
  simp [Todo.setDue, get_arrow, tsTruthy]

theorem setDuration_fields (t : Todo) (d : Option Span) :
    (t.setDuration d)._duration = d ∧
    (t.setDuration d)._due_time = (if spanTruthy d then none else t._due_time) := by
  unfold Todo.setDuration
  by_cases hd : spanTruthy d <;> simp [hd]

theorem todoInit_ok_excl (uid : Option String) (completed created : Option Timestamp)
    (description : Option String) (beginArg : Option Timestamp)
    (location : Option String) (percent priority : Option Int)
    (name url : Option String) (due : Option Timestamp)
    (duration : Option Span) (t' : Todo)
    (h : todoInit uid completed created description beginArg location percent
          priority name url due duration = .ok t') :
    exclTruthy t' = true := by
  unfold todoInit at h
  simp only [] at h
  split at h
  · exact absurd h (by simp)
  · rename_i t1 h1
    have ht1 := setBegin_ok_shape _ beginArg t1 h1
    split at h
    · exact absurd h (by simp)
    · split at h
      · split at h
        · exact absurd h (by simp)
        · rename_i hdu _
          injection h with h
          subst h
          simp [exclTruthy, Todo.setDuration, hdu, tsTruthy]
      · split at h
        · rename_i hde
          cases hdv : due with
          | none => rw [hdv] at hde; simp [tsTruthy] at hde
          | some x =>
            rw [hdv] at h
            rw [setDue_some_shape _ x t' h]
            simp [exclTruthy, tsTruthy, spanTruthy]
        · injection h with h
          subst h
          have h2 : t1._due_time = none ∧ t1._duration = none := by
            rw [ht1]; exact ⟨rfl, rfl⟩
          simp [exclTruthy, h2.1, h2.2, tsTruthy]

/-- C1 is false as the claim states it: starting from a constructed todo with
begin 1 and an explicit due-time 5, the mutation `duration = timedelta(0)`
stores a non-absent duration WITHOUT clearing the stored due-time (the
setter's truthiness test treats a zero time-span as falsy), leaving both
internal fields non-absent. -/
theorem c1_zero_span_cex :
    (todoInit none none none none (some 1) none none none none none (some 5)
        none).map (fun t => atMostOneSet (t.setDuration (some 0))) =
      .ok false := by
  rfl

/-- C1 (amended): after every operation, at most one of the internal
`_due_time` and `_duration` fields is TRUTHY (for the due-time this is
exactly non-absence; a duration equal to the zero time-span is stored without
clearing the due-time).  Setting due to a non-absent value clears any stored
duration, and setting duration to a truthy (non-absent, nonzero) value clears
any stored due-time. -/
theorem c1_truthy_exclusive (t : Todo) (h : exclTruthy t = true) :
    (∀ v t', t.setBegin v = .ok t' → exclTruthy t' = true)
    ∧ (∀ v t', t.setDue v = .ok t' → exclTruthy t' = true)
    ∧ (∀ d, exclTruthy (t.setDuration d) = true)
    ∧ (∀ line t', dueExtract t line = .ok t' → exclTruthy t' = true)
    ∧ (∀ line t', durationExtract t line = .ok t' → exclTruthy t' = true)
    ∧ (∀ uid completed created description beginArg location percent priority
         name url due duration t',
        todoInit uid completed created description beginArg location percent
            priority name url due duration = .ok t' →
        exclTruthy t' = true)
    ∧ (∀ x t', t.setDue (some x) = .ok t' → t'._duration = none)
    ∧ (∀ d, spanTruthy d = true → (t.setDuration d)._due_time = none) := by
  refine ⟨?_, ?_, ?_, ?_, ?_, ?_, ?_, ?_⟩
  · intro v t' hv
    rw [setBegin_ok_shape t v t' hv]
    exact h
  · intro v t' hv
    cases v with
    | none =>
      rw [setDue_none_shape] at hv
      cases hv
      simp [exclTruthy, tsTruthy]
    | some x =>
      rw [setDue_some_shape t x t' hv]
      simp [exclTruthy, spanTruthy]
  · intro d
    unfold Todo.setDuration
    by_cases hd : spanTruthy d <;> simp [exclTruthy, hd, tsTruthy]
  · intro line t' hv
    cases line with
    | none => cases hv; exact h
    | some l =>
      unfold dueExtract at hv
      by_cases hd : spanTruthy t._duration
      · simp [hd] at hv
      · simp [hd] at hv
        rw [← hv]
        simp [exclTruthy, hd]
  · intro line t' hv
    cases line with
    | none => cases hv; exact h
    | some l =>
      unfold durationExtract at hv
      by_cases hd : tsTruthy t._due_time
      · simp [hd] at hv
      · simp [hd] at hv
        rw [← hv]
        simp [exclTruthy, hd]
  · intro uid completed created description beginArg location percent priority
      name url due duration t' hv
    exact todoInit_ok_excl uid completed created description beginArg location
      percent priority name url due duration t' hv
  · intro x t' hv
    rw [setDue_some_shape t x t' hv]
  · intro d hd
    exact ((setDuration_fields t d).2).trans (by rw [hd]; rfl)

/-- Witness for C1 (amended): concrete runs of the exclusivity theorem. -/
theorem c1_truthy_exclusive_wit :
    exclTruthy (({} : Todo).setDuration (some 2)) = true := by
  exact (c1_truthy_exclusive {} rfl).2.2.1 (some 2)

/-- C2 (code bug): the guard of `due_within` tests `self.begin` although the
source's own inline comment ("This todo can only end within another todo if
we have a due") and the spec key the check on this entity's `due`.  For a
todo with due-time 15 and absent begin (reachable through the DUE extractor),
checked against a window `[10, 20]`, the code returns `False` while the claim
requires `True`.  The foreign-operand part of the claim does hold. -/
theorem c2_due_within_guard_bug :
    (({ _due_time := some 15 : Todo }).due_within
        (.todo { _begin := some 10, _due_time := some 20 }) = .ok false)
    ∧ (({ _due_time := some 15 : Todo }).due = .ok (some 15))
    ∧ (({ _begin := some 10, _due_time := some 20 : Todo }).begin = some 10)
    ∧ (({ _begin := some 10, _due_time := some 20 : Todo }).due = .ok (some 20))
    ∧ ((10 : Timestamp) ≤ 15 ∧ (15 : Timestamp) ≤ 20)
    ∧ (({ _due_time := some 15 : Todo }).due_within .exotic =
        .error .typeMismatch) := by
  refine ⟨rfl, rfl, rfl, rfl, by decide, rfl⟩

/-- C3: setting `begin` fails with InvalidState exactly when the coerced
value is non-absent, the stored due-time field is set, and the value strictly
exceeds that due-time; on success the stored begin becomes the value and no
other field changes. -/
theorem c3_set_begin_spec (t : Todo) (v : Option Timestamp) :
    (t.setBegin v = .error .invalidState ↔
      ∃ x dt, get_arrow v = some x ∧ t._due_time = some dt ∧ dt < x)
    ∧ (∀ t', t.setBegin v = .ok t' → t' = { t with _begin := get_arrow v }) := by
  constructor
  · constructor
    · intro h
      unfold Todo.setBegin get_arrow at h
      cases hv : v with
      | none => subst hv; cases hd : t._due_time <;> simp [hd] at h
      | some x =>
        subst hv
        cases hd : t._due_time with
        | none => simp [hd] at h
        | some dt =>
          by_cases hgt : x > dt
          · exact ⟨x, dt, rfl, rfl, hgt⟩
          · simp [hd, hgt] at h
    · rintro ⟨x, dt, hx, hdt, hlt⟩
      rw [show get_arrow v = v from rfl] at hx
      subst hx
      unfold Todo.setBegin get_arrow
      simp [hdt, hlt]
  · intro t' h
    exact setBegin_ok_shape t v t' h

/-- Witness for C3: a concrete rejected mutation. -/
theorem c3_set_begin_spec_wit :
    ({ _due_time := some 5 : Todo }).setBegin (some 7) = .error .invalidState :=
  (c3_set_begin_spec { _due_time := some 5 } (some 7)).1.mpr
    ⟨7, 5, rfl, rfl, by decide⟩

/-- C4: for begin <= due, constructing with that pair and reading back gives
it back unchanged; and setting due to a value strictly below a present begin
fails with InvalidState. -/
theorem c4_construct_roundtrip (b d : Timestamp) (h : b ≤ d) :
    ((todoInit none none none none (some b) none none none none none (some d)
        none).map (fun t => (t.begin, t.due)) = .ok (some b, .ok (some d)))
    ∧ (∀ (t : Todo) (x b0 : Timestamp), t._begin = some b0 → x < b0 →
        t.setDue (some x) = .error .invalidState) := by
  constructor
  · have hnd : ¬(d < b) := not_lt.mpr h
    unfold todoInit
    simp [Todo.setBegin, get_arrow, spanTruthy, tsTruthy, Todo.setDue,
      ltOptTs, hnd, Except.map, Todo.due, Todo.begin]
  · intro t x b0 hb hx
    unfold Todo.setDue get_arrow
    simp [tsTruthy, ltOptTs, hb, hx]

/-- Witness for C4: the pair (1, 5) and a concrete rejected mutation. -/
theorem c4_construct_roundtrip_wit :
    ((todoInit none none none none (some 1) none none none none none (some 5)
        none).map (fun t => (t.begin, t.due)) = .ok (some 1, .ok (some 5)))
    ∧ ({ _begin := some 10 : Todo }).setDue (some 3) = .error .invalidState :=
  ⟨(c4_construct_roundtrip 1 5 (by decide)).1,
   (c4_construct_roundtrip 1 5 (by decide)).2 { _begin := some 10 } 3 10 rfl
     (by decide)⟩

/-- C5 is false as the claim states it: a stored zero time-span is a stored
duration, yet with begin 5 the derived due is absent, not `begin + duration`
(the due getter's truthiness test skips a zero duration). -/
theorem c5_zero_span_cex :
    ({ _begin := some 5, _duration := some 0 : Todo }).due ≠
      .ok (some (5 + 0)) := by
  decide

/-- C5 (amended): with a begin and a TRUTHY (non-absent, nonzero) stored
duration, the derived due equals begin + duration; with a begin and a
derived-available due, the derived duration equals due - begin.  Both getters
are pure functions of the state, so re-derivation is trivially stable. -/
theorem c5_due_algebra (t : Todo) :
    (∀ b dur, t._begin = some b → t._duration = some dur → dur ≠ 0 →
      t.due = .ok (some (b + dur)))
    ∧ (∀ b dv, t._begin = some b → t.due = .ok (some dv) →
      t.duration = .ok (some (dv - b))) := by
  constructor
  · intro b dur hb hd hnz
    unfold Todo.due Todo.begin
    simp [spanTruthy, hb, hd, hnz]
  · intro b dv hb hdue
    by_cases hd : spanTruthy t._duration = true
    · cases hdur : t._duration with
      | none => rw [hdur] at hd; simp [spanTruthy] at hd
      | some du =>
        have hdd : t.due = .ok (some (b + du)) := by
          unfold Todo.due Todo.begin
          rw [if_pos hd, hb, hdur]
        rw [hdue] at hdd
        have hv : dv = b + du := by
          injection hdd with hdd
          exact Option.some.inj hdd
        have hvv : dv - b = du := by subst hv; ring
        unfold Todo.duration
        rw [if_pos hd, hdur, hvv]
    · unfold Todo.duration
      rw [if_neg hd, hdue]
      unfold Todo.begin
      rw [hb]

/-- Witness for C5 (amended): concrete derivations in both directions. -/
theorem c5_due_algebra_wit :
    (({ _begin := some 2, _duration := some 3 : Todo }).due = .ok (some (2 + 3)))
    ∧ (({ _begin := some 2, _due_time := some 7 : Todo }).duration =
        .ok (some (7 - 2))) :=
  ⟨(c5_due_algebra { _begin := some 2, _duration := some 3 }).1 2 3 rfl rfl
    (by decide),
   (c5_due_algebra { _begin := some 2, _due_time := some 7 }).2 2 7 rfl rfl⟩

/-- C6 is false as the claim states it: a zero time-span is a non-absent
duration argument, yet the constructor's truthiness tests skip both checks:
supplying duration 0 together with due 5 (and begin 1) succeeds, and
supplying duration 0 with an absent begin succeeds; a Todo is produced. -/
theorem c6_zero_span_cex :
    (todoInit none none none none (some 1) none none none none none (some 5)
        (some 0) ≠ .error .invalidConstr)
    ∧ (todoInit none none none none none none none none none none none
        (some 0) ≠ .error .invalidConstr) := by
  exact ⟨by decide, by decide⟩

/-- C6 (amended): supplying a TRUTHY (non-absent, nonzero) duration together
with a non-absent due fails with InvalidConstruction, and supplying a truthy
duration with an absent begin fails with InvalidConstruction. -/
theorem c6_constructor_rejects (uid : Option String)
    (completed created : Option Timestamp) (description : Option String)
    (beginArg : Option Timestamp) (location : Option String)
    (percent priority : Option Int) (name url : Option String)
    (due : Option Timestamp) (duration : Option Span) :
    (spanTruthy duration = true → tsTruthy due = true →
      todoInit uid completed created description beginArg location percent
          priority name url due duration = .error .invalidConstr)
    ∧ (spanTruthy duration = true → tsTruthy beginArg = false →
      todoInit uid completed created description beginArg location percent
          priority name url due duration = .error .invalidConstr) := by
  constructor
  · intro hdu hde
    unfold todoInit
    cases beginArg <;> simp [Todo.setBegin, get_arrow, hdu, hde]
  · intro hdu hbg
    cases hb : beginArg with
    | some bb => rw [hb] at hbg; simp [tsTruthy] at hbg
    | none =>
      unfold todoInit
      by_cases hde : tsTruthy due = true
      · simp [Todo.setBegin, get_arrow, hdu, hde]
      · simp [Todo.setBegin, get_arrow, hdu, hde, tsTruthy]

/-- Witness for C6 (amended): concrete rejected constructions. -/
theorem c6_constructor_rejects_wit :
    (todoInit none none none none (some 1) none none none none none (some 5)
        (some 2) = .error .invalidConstr)
    ∧ (todoInit none none none none none none none none none none none
        (some 2) = .error .invalidConstr) :=
  ⟨(c6_constructor_rejects none none none none (some 1) none none none none
      none (some 5) (some 2)).1 rfl rfl,
   (c6_constructor_rejects none none none none none none none none none none
      none (some 2)).2 rfl rfl⟩

/-- Name order of the spec, strict `<` form: an absent name sorts before any
present name; present names compare as strings. -/
def specNameLt : Option String → Option String → Bool
  | none, none => false
  | none, some _ => true
  | some _, none => false
  | some x, some y => decide (x < y)

/-- Name order of the spec, `<=` form (see `specNameLt`). -/
def specNameLe : Option String → Option String → Bool
  | none, none => true
  | none, some _ => true
  | some _, none => false
  | some x, some y => decide (x ≤ y)

/-- Name order of the spec, strict `>` form (see `specNameLt`). -/
def specNameGt : Option String → Option String → Bool
  | none, none => false
  | none, some _ => false
  | some _, none => true
  | some x, some y => decide (x > y)

/-- Name order of the spec, `>=` form (see `specNameLt`). -/
def specNameGe : Option String → Option String → Bool
  | none, none => true
  | none, some _ => false
  | some _, none => true
  | some x, some y => decide (x ≥ y)

/-- C7: with both derived dues absent, each of the four comparison operators
compares by name with an absent name sorting before any present name; with
both names also absent, the strict operators return false and the non-strict
ones true. -/
theorem c7_absent_due_order (a b : Todo)
    (ha : a.due = .ok none) (hb : b.due = .ok none) :
    a.lt (.todo b) = .ok (specNameLt a.name b.name)
    ∧ a.le (.todo b) = .ok (specNameLe a.name b.name)
    ∧ a.gt (.todo b) = .ok (specNameGt a.name b.name)
    ∧ a.ge (.todo b) = .ok (specNameGe a.name b.name)
    ∧ specNameLt none none = false ∧ specNameLe none none = true
    ∧ specNameGt none none = false ∧ specNameGe none none = true := by
  refine ⟨?_, ?_, ?_, ?_, rfl, rfl, rfl, rfl⟩
  · cases hna : a.name <;> cases hnb : b.name <;>
      simp [Todo.lt, ha, hb, hna, hnb, specNameLt]
  · cases hna : a.name <;> cases hnb : b.name <;>
      simp [Todo.le, ha, hb, hna, hnb, specNameLe]
  · cases hna : a.name <;> cases hnb : b.name <;>
      simp [Todo.gt, ha, hb, hna, hnb, py2GtName, specNameGt]
  · cases hna : a.name <;> cases hnb : b.name <;>
      simp [Todo.ge, ha, hb, hna, hnb, py2GeName, specNameGe]

/-- Witness for C7: a concrete comparison with both dues absent. -/
theorem c7_absent_due_order_wit :
    ({ name := some "x" } : Todo).lt (.todo {}) =
      .ok (specNameLt (some "x") none) :=
  (c7_absent_due_order { name := some "x" } {} rfl rfl).1

theorem hasTag_append_one (c : List ContentLine) (l : ContentLine)
    (tag : String) :
    hasTag (c ++ [l]) tag = (hasTag c tag || (l.name == tag)) := by
  simp [hasTag]

theorem hasTag_o_uid (t : Todo) (c : List ContentLine) (tag : String)
    (h : ("UID" == tag) = false) : hasTag (o_uid t c) tag = hasTag c tag := by
  simp [o_uid, hasTag_append_one, h]

theorem hasTag_o_completed (t : Todo) (now : Timestamp) (c : List ContentLine)
    (tag : String) (h : ("COMPLETED" == tag) = false) :
    hasTag (o_completed t now c) tag = hasTag c tag := by
  simp [o_completed, hasTag_append_one, h]

theorem hasTag_o_created (t : Todo) (now : Timestamp) (c : List ContentLine)
    (tag : String) (h : ("DTSTAMP" == tag) = false) :
    hasTag (o_created t now c) tag = hasTag c tag := by
  simp [o_created, hasTag_append_one, h]

theorem hasTag_o_description (t : Todo) (c : List ContentLine) (tag : String)
    (h : ("DESCRIPTION" == tag) = false) :
    hasTag (o_description t c) tag = hasTag c tag := by
  unfold o_description
  split <;> simp [hasTag_append_one, h]

theorem hasTag_o_start (t : Todo) (c : List ContentLine) (tag : String)
    (h : ("DTSTART" == tag) = false) :
    hasTag (o_start t c) tag = hasTag c tag := by
  unfold o_start
  cases t.begin <;> simp [hasTag_append_one, h]

theorem hasTag_o_location (t : Todo) (c : List ContentLine) (tag : String)
    (h : ("LOCATION" == tag) = false) :
    hasTag (o_location t c) tag = hasTag c tag := by
  unfold o_location
  split <;> simp [hasTag_append_one, h]

theorem hasTag_o_percent (t : Todo) (c : List ContentLine) (tag : String)
    (h : ("PERCENT-COMPLETE" == tag) = false) :
    hasTag (o_percent t c) tag = hasTag c tag := by
  unfold o_percent
  split <;> simp [hasTag_append_one, h]

theorem hasTag_o_priority (t : Todo) (c : List ContentLine) (tag : String)
    (h : ("PRIORITY" == tag) = false) :
    hasTag (o_priority t c) tag = hasTag c tag := by
  unfold o_priority
  split <;> simp [hasTag_append_one, h]

theorem hasTag_o_summary (t : Todo) (c : List ContentLine) (tag : String)
    (h : ("SUMMARY" == tag) = false) :
    hasTag (o_summary t c) tag = hasTag c tag := by
  unfold o_summary
  split <;> simp [hasTag_append_one, h]

theorem hasTag_o_url (t : Todo) (c : List ContentLine) (tag : String)
    (h : ("URL" == tag) = false) :
    hasTag (o_url t c) tag = hasTag c tag := by
  unfold o_url
  split <;> simp [hasTag_append_one, h]

theorem hasTag_o_due_self (t : Todo) (c : List ContentLine) :
    hasTag (o_due t c) "DUE" = (hasTag c "DUE" || t._due_time.isSome) := by
  unfold o_due
  cases t._due_time <;> simp [hasTag_append_one]

theorem hasTag_o_due_other (t : Todo) (c : List ContentLine) (tag : String)
    (h : ("DUE" == tag) = false) :
    hasTag (o_due t c) tag = hasTag c tag := by
  unfold o_due
  cases t._due_time <;> simp [hasTag_append_one, h]

theorem hasTag_o_duration_self (t : Todo) (c : List ContentLine) :
    hasTag (o_duration t c) "DURATION" =
      (hasTag c "DURATION" || (spanTruthy t._duration && tsTruthy t.begin)) := by
  unfold o_duration
  cases t._duration with
  | none => simp [spanTruthy]
  | some d =>
    by_cases hc : (d != 0 && tsTruthy t.begin) = true
    · simp [hc, hasTag_append_one, spanTruthy]
    · have hcf : (d != 0 && tsTruthy t.begin) = false := by
        simpa using hc
      simp [hcf, spanTruthy]

theorem hasTag_o_duration_other (t : Todo) (c : List ContentLine)
    (tag : String) (h : ("DURATION" == tag) = false) :
    hasTag (o_duration t c) tag = hasTag c tag := by
  unfold o_duration
  cases t._duration with
  | none => rfl
  | some d =>
    by_cases hc : (d != 0 && tsTruthy t.begin) = true
    · simp [hc, hasTag_append_one, h]
    · have hcf : (d != 0 && tsTruthy t.begin) = false := by
        simpa using hc
      simp [hcf]

theorem hasTag_output_prefix_false (t : Todo) (now : Timestamp) (tag : String)
    (h1 : ("UID" == tag) = false) (h2 : ("COMPLETED" == tag) = false)
    (h3 : ("DTSTAMP" == tag) = false) (h4 : ("DESCRIPTION" == tag) = false)
    (h5 : ("DTSTART" == tag) = false) (h6 : ("LOCATION" == tag) = false)
    (h7 : ("PERCENT-COMPLETE" == tag) = false)
    (h8 : ("PRIORITY" == tag) = false) (h9 : ("SUMMARY" == tag) = false)
    (h10 : ("URL" == tag) = false) :
    hasTag (o_url t (o_summary t (o_priority t (o_percent t (o_location t
      (o_start t (o_description t (o_created t now (o_completed t now
        (o_uid t [])))))))))) tag = false := by
  rw [hasTag_o_url t _ tag h10, hasTag_o_summary t _ tag h9,
    hasTag_o_priority t _ tag h8, hasTag_o_percent t _ tag h7,
    hasTag_o_location t _ tag h6, hasTag_o_start t _ tag h5,
    hasTag_o_description t _ tag h4, hasTag_o_created t now _ tag h3,
    hasTag_o_completed t now _ tag h2, hasTag_o_uid t _ tag h1]
  rfl

/-- C8 is false as the claim states it: with begin 1 and a stored duration
equal to the zero time-span, the explicit duration field and begin are both
set, yet serialization appends no DURATION line (the producer's truthiness
test drops a zero time-span). -/
theorem c8_zero_span_cex :
    hasTag (todoOutput { _begin := some 1, _duration := some 0 } 0)
        "DURATION" = false
    ∧ ({ _begin := some 1, _duration := some 0 : Todo })._duration = some 0
    ∧ ({ _begin := some 1, _duration := some 0 : Todo })._begin = some 1 := by
  exact ⟨by decide, rfl, rfl⟩

/-- C8 (amended): serialization appends a DUE line iff the explicit due-time
field is set; it appends a DURATION line iff the explicit duration field is
TRUTHY (non-absent and nonzero) and begin is set; and for every todo
satisfying the truthy mutual-exclusion invariant the output never contains
both a DUE and a DURATION line. -/
theorem c8_output_lines (t : Todo) (now : Timestamp) :
    hasTag (todoOutput t now) "DUE" = t._due_time.isSome
    ∧ hasTag (todoOutput t now) "DURATION" =
        (spanTruthy t._duration && tsTruthy t.begin)
    ∧ (exclTruthy t = true →
        ¬(hasTag (todoOutput t now) "DUE" = true ∧
          hasTag (todoOutput t now) "DURATION" = true)) := by
  have hdue : hasTag (todoOutput t now) "DUE" = t._due_time.isSome := by
    unfold todoOutput
    rw [hasTag_o_duration_other t _ "DUE" rfl, hasTag_o_due_self t _,
      hasTag_output_prefix_false t now "DUE" rfl rfl rfl rfl rfl rfl rfl rfl
        rfl rfl]
    simp
  have hdur : hasTag (todoOutput t now) "DURATION" =
      (spanTruthy t._duration && tsTruthy t.begin) := by
    unfold todoOutput
    rw [hasTag_o_duration_self t _, hasTag_o_due_other t _ "DURATION" rfl,
      hasTag_output_prefix_false t now "DURATION" rfl rfl rfl rfl rfl rfl rfl
        rfl rfl rfl]
    simp
  refine ⟨hdue, hdur, ?_⟩
  intro hx ⟨hboth1, hboth2⟩
  rw [hdue] at hboth1
  rw [hdur] at hboth2
  unfold exclTruthy at hx
  have hts : tsTruthy t._due_time = true := by
    cases hdt : t._due_time with
    | none => rw [hdt] at hboth1; simp at hboth1
    | some x => simp [tsTruthy]
  rw [hts] at hx
  simp at hx
  rw [hx] at hboth2
  simp at hboth2

/-- Witness for C8 (amended): a concrete serialization with an explicit
due-time present and its mutual-exclusion consequence. -/
theorem c8_output_lines_wit :
    hasTag (todoOutput { _due_time := some 5 } 0) "DUE" = true
    ∧ ¬(hasTag (todoOutput { _due_time := some 5 } 0) "DUE" = true ∧
        hasTag (todoOutput { _due_time := some 5 } 0) "DURATION" = true) :=
  ⟨((c8_output_lines { _due_time := some 5 } 0).1).trans rfl,
   (c8_output_lines { _due_time := some 5 } 0).2.2 rfl⟩

/-- C9: a container with no PERCENT-COMPLETE line makes extraction fail (the
percent handler reads `line.value` before testing whether the line exists)
instead of leaving percent absent, and likewise a container with no PRIORITY
line makes the priority handler fail. -/
theorem c9_missing_line_fails (c : List ContentLine) (t : Todo)
    (hp : ∀ l ∈ c, l.name ≠ "PERCENT-COMPLETE")
    (hq : ∀ l ∈ c, l.name ≠ "PRIORITY") :
    percentExtract t (findLine c "PERCENT-COMPLETE") = .error .noneErr
    ∧ priorityExtract t (findLine c "PRIORITY") = .error .noneErr := by
  have h1 : findLine c "PERCENT-COMPLETE" = none := by
    unfold findLine
    apply List.find?_eq_none.mpr
    intro l hl
    simp [hp l hl]
  have h2 : findLine c "PRIORITY" = none := by
    unfold findLine
    apply List.find?_eq_none.mpr
    intro l hl
    simp [hq l hl]
  rw [h1, h2]
  exact ⟨rfl, rfl⟩

/-- Witness for C9: the empty container. -/
theorem c9_missing_line_fails_wit :
    percentExtract {} (findLine [] "PERCENT-COMPLETE") = .error .noneErr
    ∧ priorityExtract {} (findLine [] "PRIORITY") = .error .noneErr :=
  c9_missing_line_fails [] {} (by simp) (by simp)

/-- C10: the duration getter is partial: for every todo with the explicit
due-time field set, begin absent, and the truthy mutual-exclusion invariant
(so the stored duration is falsy), reading duration evaluates `due - begin`
with an absent begin and fails rather than returning absent; and such a state
is reachable because the DUE extractor writes the due-time field directly
with no begin check. -/
theorem c10_duration_getter_raises (t : Todo)
    (h1 : t._due_time.isSome = true) (h2 : t._begin = none)
    (h3 : exclTruthy t = true) :
    t.duration = .error .noneErr
    ∧ (∀ (t0 : Todo) (l : ContentLine), spanTruthy t0._duration = false →
        dueExtract t0 (some l) =
          .ok { t0 with _due_time := some (iso_to_arrow l.value) }) := by
  constructor
  · have hsp : spanTruthy t._duration = false := by
      unfold exclTruthy at h3
      cases hdt : t._due_time with
      | none => rw [hdt] at h1; simp at h1
      | some dt =>
        rw [hdt] at h3
        simp [tsTruthy] at h3
        exact h3
    cases hdt : t._due_time with
    | none => rw [hdt] at h1; simp at h1
    | some dt =>
      have hdue : t.due = .ok (some dt) := by
        unfold Todo.due
        rw [if_neg (by simp [hsp]), hdt]
        simp [tsTruthy]
      unfold Todo.duration
      rw [if_neg (by simp [hsp]), hdue]
      unfold Todo.begin
      rw [h2]
  · intro t0 l hsp
    unfold dueExtract
    simp [hsp]

/-- Witness for C10: the state left by the DUE extractor on a fresh todo. -/
theorem c10_duration_getter_raises_wit :
    ({ _due_time := some 5 : Todo }).duration = .error .noneErr :=
  (c10_duration_getter_raises { _due_time := some 5 } rfl rfl rfl).1

end IcsTodo
